import Mathlib

/-!
Verification of the WMS package/pallet state-transition engine.

The data model and the validation functions are transcribed from the
repository's design document (`docs/DESIGN.md`, sections 3, 6 and 7:
`validateInduct`, `validateStow`, the GraphQL result types, and ADR-003's
conditional-write contract).  The coordinator functions that the design
document only describes in prose (the induct service, the batch induct
loop, and the write phase of `stowPackages`) are modelled from the spec,
as marked in their doc comments.

Timestamps are modelled as `Nat`; optional request timestamps
(`receivedAt`, `stowedAt`, defaulting to "now") are passed as already
resolved `Nat` arguments.  Audit columns (`createdAt`, `updatedAt`) are
omitted: no claim mentions them.
-/

namespace WMS

/-- Package status enum, from the Prisma schema / GraphQL `PackageStatus`. -/
inductive PackageStatus where
  | PENDING
  | INDUCTED
  | STOWED
  | STAGED
  | PICKED
deriving DecidableEq, Repr

/-- Renders a status the way TypeScript string interpolation of the enum does. -/
def statusName : PackageStatus → String
  | .PENDING => "PENDING"
  | .INDUCTED => "INDUCTED"
  | .STOWED => "STOWED"
  | .STAGED => "STAGED"
  | .PICKED => "PICKED"

/-- The `PACKAGE` row from the data model (audit timestamps omitted). -/
structure Package where
  id : String
  warehouseId : String
  palletId : Option String
  status : PackageStatus
  inductedAt : Option Nat
  stowedAt : Option Nat
  version : Nat
deriving DecidableEq, Repr

/-- The `PALLET` row from the data model (audit timestamps omitted). -/
structure Pallet where
  id : String
  storageLocationId : Option String
  stagedAt : Option Nat
deriving DecidableEq, Repr

/-- The `WAREHOUSE` row from the data model. -/
structure Warehouse where
  id : String
  name : String
deriving DecidableEq, Repr

/-- `ErrorCode` enum from the GraphQL schema. -/
inductive ErrorCode where
  | NOT_FOUND
  | INVALID_STATE
  | ALREADY_EXISTS
  | VALIDATION_FAILED
  | CONFLICT
deriving DecidableEq, Repr

/-- `ValidationError` from the GraphQL schema: field, message, code. -/
structure ValidationError where
  field : String
  message : String
  code : ErrorCode
deriving DecidableEq, Repr

/-- The durable entity store: the three tables the induct/stow engine touches. -/
structure Store where
  packages : List Package
  pallets : List Pallet
  warehouses : List Warehouse
deriving DecidableEq, Repr

/-- Repository findById for packages: first row whose id matches. -/
def findPackageIn : List Package → String → Option Package
  | [], _ => none
  | p :: ps, pid => if p.id = pid then some p else findPackageIn ps pid

def findPackage (s : Store) (pid : String) : Option Package :=
  findPackageIn s.packages pid

/-- Repository findById for pallets. -/
def findPalletIn : List Pallet → String → Option Pallet
  | [], _ => none
  | p :: ps, pid => if p.id = pid then some p else findPalletIn ps pid

def findPallet (s : Store) (pid : String) : Option Pallet :=
  findPalletIn s.pallets pid

/-- Repository findById for warehouses. -/
def findWarehouseIn : List Warehouse → String → Option Warehouse
  | [], _ => none
  | w :: ws, wid => if w.id = wid then some w else findWarehouseIn ws wid

def findWarehouse (s : Store) (wid : String) : Option Warehouse :=
  findWarehouseIn s.warehouses wid

/-- Plain row update, `UPDATE packages SET ... WHERE id = pid`: rewrites every row whose id matches. -/
def updatePackage (ps : List Package) (pid : String) (f : Package → Package) : List Package :=
  ps.map (fun p => if p.id = pid then f p else p)

/-- The outcome of `validateInduct` / `validateStow` in the design document:
`{ valid: true, idempotent? }` or `{ valid: false, code, message }`. -/
inductive ValidationResult where
  | valid (idempotent : Bool)
  | invalid (code : ErrorCode) (message : String)
deriving DecidableEq, Repr

/-- Transcription of `validateInduct` from DESIGN.md section 7.1, clause for clause:
missing package, then missing warehouse, then the INDUCTED idempotent case,
then the not-PENDING rejection. -/
def validateInduct (s : Store) (packageId warehouseId : String) : ValidationResult :=
  match findPackage s packageId with
  | none => .invalid .NOT_FOUND "Package not found"
  | some pkg =>
    match findWarehouse s warehouseId with
    | none => .invalid .NOT_FOUND "Warehouse not found"
    | some _ =>
      if pkg.status = .INDUCTED then
        .valid true
      else if ¬ (pkg.status = .PENDING) then
        .invalid .INVALID_STATE
          ("Cannot induct package in " ++ statusName pkg.status ++ " state")
      else
        .valid false

/-- The body of the per-package loop of `validateStow` (DESIGN.md section 7.2):
`none` means the loop continues (accept or idempotent skip), `some (code, msg)`
is the early-returned rejection.  The checks appear in the source's order:
not found, STOWED-on-same-pallet `continue`, not-INDUCTED rejection, then the
different-pallet conflict check. -/
def stowDecisionErr (s : Store) (palletId pkgId : String) : Option (ErrorCode × String) :=
  match findPackage s pkgId with
  | none => some (.NOT_FOUND, "Package " ++ pkgId ++ " not found")
  | some pkg =>
    if pkg.status = .STOWED ∧ pkg.palletId = some palletId then
      none
    else if ¬ (pkg.status = .INDUCTED) then
      some (.INVALID_STATE,
        "Package " ++ pkgId ++ " is in " ++ statusName pkg.status
          ++ " state, expected INDUCTED")
    else if pkg.palletId.isSome ∧ ¬ (pkg.palletId = some palletId) then
      some (.CONFLICT,
        "Package " ++ pkgId ++ " already stowed on pallet "
          ++ pkg.palletId.getD "")
    else
      none

/-- The `for (const pkgId of packageIds)` loop of `validateStow`: returns the
first rejection encountered, in input order, else `valid`. -/
def validateStowPackages (s : Store) (palletId : String) : List String → ValidationResult
  | [] => .valid false
  | pkgId :: rest =>
    match stowDecisionErr s palletId pkgId with
    | some e => .invalid e.1 e.2
    | none => validateStowPackages s palletId rest

/-- Step 1 of `validateStow`: `palletRepo.findById`, and `palletRepo.create`
when absent (the only implicit-creation path in the core). -/
def getOrCreatePallet (s : Store) (palletId : String) : Store :=
  match findPallet s palletId with
  | some _ => s
  | none =>
    { s with pallets := s.pallets ++ [{ id := palletId, storageLocationId := none, stagedAt := none }] }

/-- Transcription of `validateStow` from DESIGN.md section 7.2: create the pallet if it does not
exist, then validate each package in input order.  The pallet creation is a
store write, so the function returns the store it leaves behind. -/
def validateStow (s : Store) (packageIds : List String) (palletId : String) :
    ValidationResult × Store :=
  let s1 := getOrCreatePallet s palletId
  (validateStowPackages s1 palletId packageIds, s1)

/-- GraphQL `InductResult`: success flag, message, entity snapshot, errors. -/
structure InductResult where
  success : Bool
  message : String
  package : Option Package
  errors : List ValidationError
deriving DecidableEq, Repr

/-- GraphQL `StowResult`: success flag, message, pallet snapshot, errors. -/
structure StowResult where
  success : Bool
  message : String
  pallet : Option Pallet
  errors : List ValidationError
deriving DecidableEq, Repr

/-- The column assignments of the induct Accept write (per ADR-003's UPDATE
shape: new state, `version = version + 1`). -/
def inductApply (receivedAt : Nat) (p : Package) : Package :=
  { p with status := .INDUCTED, inductedAt := some receivedAt, version := p.version + 1 }

/-- Modelled from the spec: the induct service
(`api/src/services/induct.service.ts`) is not under `src/`; this follows the
spec's induct-one contract (section 4.2) and story #4's checklist — run the
design document's `validateInduct`; on Reject build a failure `InductResult`
(field per the spec's decision table: `packageId` / `warehouseId` for the two
NOT_FOUND cases, `status` otherwise) with no write; on Idempotent-Noop report
success with no write; on Accept update the row (status INDUCTED, inductedAt,
version + 1). -/
def inductPackage (s : Store) (packageId warehouseId : String) (receivedAt : Nat) :
    InductResult × Store :=
  match validateInduct s packageId warehouseId with
  | .invalid code msg =>
    let fld :=
      if (findPackage s packageId).isNone then "packageId"
      else if (findWarehouse s warehouseId).isNone then "warehouseId"
      else "status"
    ({ success := false, message := msg, package := findPackage s packageId,
       errors := [⟨fld, msg, code⟩] }, s)
  | .valid true =>
    ({ success := true, message := "Package already inducted",
       package := findPackage s packageId, errors := [] }, s)
  | .valid false =>
    let s1 : Store :=
      { s with packages := updatePackage s.packages packageId (inductApply receivedAt) }
    ({ success := true, message := "Inducted successfully",
       package := findPackage s1 packageId, errors := [] }, s1)

/-- GraphQL `InductPackageInput`. -/
structure InductPackageInput where
  packageId : String
  warehouseId : String
  receivedAt : Nat
deriving DecidableEq, Repr

/-- GraphQL `InductBatchResult`. -/
structure InductBatchResult where
  successCount : Nat
  failureCount : Nat
  results : List InductResult
deriving DecidableEq, Repr

/-- Modelled from the spec: the batch loop of the induct service (story #6 —
"Loop through inputs, call `inductPackage` for each, collect results in array,
do not stop on first error").  Processes items in input order, threading the
store. -/
def inductLoop (s : Store) : List InductPackageInput → List InductResult × Store
  | [] => ([], s)
  | i :: rest =>
    let r1 := inductPackage s i.packageId i.warehouseId i.receivedAt
    let rs := inductLoop r1.2 rest
    (r1.1 :: rs.1, rs.2)

/-- Modelled from the spec: `inductPackages` batch mutation (story #6 /
ADR-002) — run the loop, then count items whose individual `success` is
true / false. -/
def inductPackages (s : Store) (inputs : List InductPackageInput) :
    InductBatchResult × Store :=
  let rs := inductLoop s inputs
  ({ successCount := (rs.1.filter (fun r => r.success)).length,
     failureCount := (rs.1.filter (fun r => ! r.success)).length,
     results := rs.1 }, rs.2)

/-- The column assignments of the stow Accept write (per ADR-003's UPDATE
shape: `palletId`, STOWED status, `stowedAt`, `version = version + 1`). -/
def stowApply (palletId : String) (stowedAt : Nat) (p : Package) : Package :=
  { p with status := .STOWED, palletId := some palletId,
           stowedAt := some stowedAt, version := p.version + 1 }

/-- Modelled from the spec: one write of the stow write phase (spec section
4.2 step 3, story #5) — a package whose step-2 decision was Accept (status
INDUCTED) gets `palletId`, status STOWED, `stowedAt`, `version + 1`; on
Idempotent-Noop no write occurs. -/
def stowWrite (pkgId palletId : String) (stowedAt : Nat) (s : Store) : Store :=
  match findPackage s pkgId with
  | none => s
  | some pkg =>
    if pkg.status = .INDUCTED then
      { s with packages := updatePackage s.packages pkgId (stowApply palletId stowedAt) }
    else
      s

/-- Modelled from the spec: the stow write phase applied to each package id in
input order (each processed once; a duplicate's second occurrence finds the
package already STOWED and is a no-op). -/
def stowWrites (palletId : String) (stowedAt : Nat) : Store → List String → Store
  | s, [] => s
  | s, pkgId :: rest => stowWrites palletId stowedAt (stowWrite pkgId palletId stowedAt s) rest

/-- Modelled from the spec: the `stowPackages` coordinator
(`api/src/services/stow.service.ts` is not under `src/`) — step 1 and step 2
are the design document's `validateStow` (pallet get-or-create, then validate
every package); if validation rejects, the operation fails as a unit with no
package write; only on zero rejects does step 3 apply the writes. -/
def stowPackages (s : Store) (palletId : String) (packageIds : List String) (stowedAt : Nat) :
    StowResult × Store :=
  let v := validateStow s packageIds palletId
  match v.1 with
  | .invalid code msg =>
    ({ success := false, message := msg, pallet := none,
       errors := [⟨"packageIds", msg, code⟩] }, v.2)
  | .valid _ =>
    let s2 := stowWrites palletId stowedAt v.2 packageIds
    ({ success := true, message := "Packages stowed successfully",
       pallet := findPallet s2 palletId, errors := [] }, s2)

/-- ADR-003's conditional write:
`UPDATE packages SET ... WHERE id = pid AND version = v`.
Returns the rewritten table and whether any row was affected. -/
def updateWithVersion : List Package → String → Nat → (Package → Package) →
    List Package × Bool
  | [], _, _, _ => ([], false)
  | p :: ps, pid, v, f =>
    let r := updateWithVersion ps pid v f
    if p.id = pid ∧ p.version = v then (f p :: r.1, true) else (p :: r.1, r.2)

/-- Modelled from ADR-003 (the coordinator's write path is not under `src/`):
the coordinator read a snapshot whose version is `snapshotVersion`; concurrent
writers may have changed the row since; one conditional write is attempted.
"If the version has changed (another worker updated it), the query affects 0
rows, and we return a conflict error" — and per ADR-003's consequences the
*client*, not the coordinator, retries: zero rows affected surfaces CONFLICT
immediately, with the store untouched. -/
def inductWrite (s : Store) (packageId : String) (snapshotVersion : Nat) (receivedAt : Nat) :
    InductResult × Store :=
  let r := updateWithVersion s.packages packageId snapshotVersion (inductApply receivedAt)
  if r.2 then
    let s1 : Store := { s with packages := r.1 }
    ({ success := true, message := "Inducted successfully",
       package := findPackage s1 packageId, errors := [] }, s1)
  else
    ({ success := false, message := "Version conflict", package := none,
       errors := [⟨"version", "Version conflict", .CONFLICT⟩] }, s)

/-- Follows the spec's words (sections 4.2 and 5), for comparison with the
ADR-003 behavior: on a zero-row conditional write the coordinator re-reads the
row and retries the whole decision exactly once; only if the second attempt
also affects zero rows does it surface CONFLICT. -/
def inductWriteSpecRetry (s : Store) (packageId : String) (snapshotVersion : Nat)
    (receivedAt : Nat) : InductResult × Store :=
  let r := updateWithVersion s.packages packageId snapshotVersion (inductApply receivedAt)
  if r.2 then
    let s1 : Store := { s with packages := r.1 }
    ({ success := true, message := "Inducted successfully",
       package := findPackage s1 packageId, errors := [] }, s1)
  else
    match findPackage s packageId with
    | none =>
      ({ success := false, message := "Version conflict", package := none,
         errors := [⟨"version", "Version conflict", .CONFLICT⟩] }, s)
    | some pkg =>
      let r2 := updateWithVersion s.packages packageId pkg.version (inductApply receivedAt)
      if r2.2 then
        let s2 : Store := { s with packages := r2.1 }
        ({ success := true, message := "Inducted successfully",
           package := findPackage s2 packageId, errors := [] }, s2)
      else
        ({ success := false, message := "Version conflict", package := none,
           errors := [⟨"version", "Version conflict", .CONFLICT⟩] }, s)

/-- Seed-style sample package: pre-registered, PENDING (seed data PKG-001). -/
def pkg001 : Package :=
  { id := "PKG-001", warehouseId := "WH-001", palletId := none, status := .PENDING,
    inductedAt := none, stowedAt := none, version := 0 }

/-- Seed-style sample package: pre-registered, PENDING (seed data PKG-002). -/
def pkg002 : Package :=
  { id := "PKG-002", warehouseId := "WH-001", palletId := none, status := .PENDING,
    inductedAt := none, stowedAt := none, version := 0 }

/-- Sample package that has already been inducted. -/
def pkgInducted : Package :=
  { id := "PKG-IND", warehouseId := "WH-001", palletId := none, status := .INDUCTED,
    inductedAt := some 1, stowedAt := none, version := 1 }

/-- Sample package already stowed on pallet PLT-A. -/
def pkgStowed : Package :=
  { id := "PKG-STOW", warehouseId := "WH-001", palletId := some "PLT-A", status := .STOWED,
    inductedAt := some 1, stowedAt := some 2, version := 2 }

/-- Sample PENDING package whose stored version (3) is ahead of a stale
snapshot, standing for a row a concurrent writer has just bumped. -/
def pkgRace : Package :=
  { id := "PKG-RACE", warehouseId := "WH-001", palletId := none, status := .PENDING,
    inductedAt := none, stowedAt := none, version := 3 }

/-- Seed warehouse WH-001. -/
def wh001 : Warehouse := { id := "WH-001", name := "Chicago Hub" }

/-- Concrete store used to instantiate the theorems, shaped like the seed data. -/
def sampleStore : Store :=
  { packages := [pkg001, pkg002, pkgInducted, pkgStowed, pkgRace],
    pallets := [{ id := "PLT-A", storageLocationId := none, stagedAt := none }],
    warehouses := [wh001] }

/-- Inputs for the batch-induct scenario of section 8 of the spec:
two valid PENDING packages followed by a non-existent one. -/
def c7Inputs : List InductPackageInput :=
  [{ packageId := "PKG-001", warehouseId := "WH-001", receivedAt := 5 },
   { packageId := "PKG-002", warehouseId := "WH-001", receivedAt := 6 },
   { packageId := "PKG-404", warehouseId := "WH-001", receivedAt := 7 }]

theorem inductApply_id (t : Nat) (p : Package) : (inductApply t p).id = p.id := rfl

theorem stowApply_id (palletId : String) (t : Nat) (p : Package) :
    (stowApply palletId t p).id = p.id := rfl

theorem findPackageIn_updatePackage_self (ps : List Package) (pid : String)
    (f : Package → Package) (hf : ∀ p, (f p).id = p.id) :
    findPackageIn (updatePackage ps pid f) pid = (findPackageIn ps pid).map f := by
  induction ps with
  | nil => rfl
  | cons p ps ih =>
    by_cases h : p.id = pid
    · simp [updatePackage, findPackageIn, h, hf]
    · simpa [updatePackage, findPackageIn, h] using ih

theorem findPackageIn_updatePackage_ne (ps : List Package) (pid qid : String)
    (f : Package → Package) (hf : ∀ p, (f p).id = p.id) (h : ¬ qid = pid) :
    findPackageIn (updatePackage ps pid f) qid = findPackageIn ps qid := by
  induction ps with
  | nil => rfl
  | cons p ps ih =>
    by_cases hp : p.id = pid
    · have hq : ¬ pid = qid := fun hqq => h hqq.symm
      simpa [updatePackage, findPackageIn, hp, hf, hq] using ih
    · by_cases hq2 : p.id = qid
      · simp [updatePackage, findPackageIn, hp, hq2, h]
      · simpa [updatePackage, findPackageIn, hp, hq2] using ih

theorem getOrCreatePallet_packages (s : Store) (palletId : String) :
    (getOrCreatePallet s palletId).packages = s.packages := by
  unfold getOrCreatePallet
  cases findPallet s palletId <;> rfl

theorem getOrCreatePallet_warehouses (s : Store) (palletId : String) :
    (getOrCreatePallet s palletId).warehouses = s.warehouses := by
  unfold getOrCreatePallet
  cases findPallet s palletId <;> rfl

theorem findPackage_getOrCreatePallet (s : Store) (palletId pid : String) :
    findPackage (getOrCreatePallet s palletId) pid = findPackage s pid := by
  unfold findPackage
  rw [getOrCreatePallet_packages]

theorem findPalletIn_append_self (ps : List Pallet) (palletId : String) (x : Pallet)
    (hx : x.id = palletId) (h : findPalletIn ps palletId = none) :
    findPalletIn (ps ++ [x]) palletId = some x := by
  induction ps with
  | nil => simp [findPalletIn, hx]
  | cons p ps ih =>
    by_cases hp : p.id = palletId
    · simp [findPalletIn, hp] at h
    · simp [findPalletIn, hp] at h ⊢
      exact ih h

theorem findPallet_getOrCreatePallet (s : Store) (palletId : String)
    (h : findPallet s palletId = none) :
    findPallet (getOrCreatePallet s palletId) palletId =
      some { id := palletId, storageLocationId := none, stagedAt := none } := by
  unfold getOrCreatePallet
  rw [h]
  unfold findPallet at h ⊢
  exact findPalletIn_append_self s.pallets palletId _ rfl h

theorem validateStowPackages_append_invalid (s : Store) (palletId : String)
    (pre : List String) (pkgId : String) (post : List String) (e : ErrorCode × String)
    (hpre : ∀ q ∈ pre, stowDecisionErr s palletId q = none)
    (hfail : stowDecisionErr s palletId pkgId = some e) :
    validateStowPackages s palletId (pre ++ pkgId :: post) = .invalid e.1 e.2 := by
  induction pre with
  | nil => simp [validateStowPackages, hfail]
  | cons q pre ih =>
    have hq : stowDecisionErr s palletId q = none := hpre q (by simp)
    have hrest : ∀ r ∈ pre, stowDecisionErr s palletId r = none :=
      fun r hr => hpre r (by simp [hr])
    simpa [validateStowPackages, hq] using ih hrest

theorem validateStowPackages_invalid_of_mem (s : Store) (palletId : String)
    (ids : List String) (pkgId : String) (e : ErrorCode × String)
    (hmem : pkgId ∈ ids) (hfail : stowDecisionErr s palletId pkgId = some e) :
    ∃ c m, validateStowPackages s palletId ids = .invalid c m := by
  induction ids with
  | nil => cases hmem
  | cons a rest ih =>
    cases hmem with
    | head => exact ⟨e.1, e.2, by simp [validateStowPackages, hfail]⟩
    | tail _ hmem2 =>
      cases ha : stowDecisionErr s palletId a with
      | some e2 => exact ⟨e2.1, e2.2, by simp [validateStowPackages, ha]⟩
      | none =>
        obtain ⟨c, m, hcm⟩ := ih hmem2
        exact ⟨c, m, by simp [validateStowPackages, ha, hcm]⟩

theorem stowPackages_invalid (s : Store) (palletId : String) (ids : List String) (t : Nat)
    (c : ErrorCode) (m : String)
    (h : validateStowPackages (getOrCreatePallet s palletId) palletId ids = .invalid c m) :
    stowPackages s palletId ids t =
      ({ success := false, message := m, pallet := none,
         errors := [⟨"packageIds", m, c⟩] }, getOrCreatePallet s palletId) := by
  simp [stowPackages, validateStow, h]

theorem stowPackages_valid (s : Store) (palletId : String) (ids : List String) (t : Nat)
    (b : Bool)
    (h : validateStowPackages (getOrCreatePallet s palletId) palletId ids = .valid b) :
    stowPackages s palletId ids t =
      ({ success := true, message := "Packages stowed successfully",
         pallet := findPallet (stowWrites palletId t (getOrCreatePallet s palletId) ids) palletId,
         errors := [] }, stowWrites palletId t (getOrCreatePallet s palletId) ids) := by
  simp [stowPackages, validateStow, h]

theorem stowWrite_skip (s : Store) (pkgId palletId : String) (t : Nat) (pkg : Package)
    (h : findPackage s pkgId = some pkg) (hst : ¬ pkg.status = .INDUCTED) :
    stowWrite pkgId palletId t s = s := by
  simp [stowWrite, h, hst]

theorem findPackage_stowWrite_ne (s : Store) (pkgId qid palletId : String) (t : Nat)
    (h : ¬ qid = pkgId) :
    findPackage (stowWrite pkgId palletId t s) qid = findPackage s qid := by
  unfold stowWrite
  cases hf : findPackage s pkgId with
  | none => rfl
  | some pkg =>
    by_cases hst : pkg.status = .INDUCTED
    · simp only [hst, if_pos rfl, if_true]
      unfold findPackage
      exact findPackageIn_updatePackage_ne s.packages pkgId qid _ (fun p => rfl) h
    · simp [hst]

theorem findPackage_stowWrite_inducted (s : Store) (pkgId palletId : String) (t : Nat)
    (pkg : Package) (h : findPackage s pkgId = some pkg) (hst : pkg.status = .INDUCTED) :
    findPackage (stowWrite pkgId palletId t s) pkgId = some (stowApply palletId t pkg) := by
  unfold findPackage at h ⊢
  simp only [stowWrite]
  rw [show findPackage s pkgId = some pkg from h]
  simp only [hst, if_pos rfl, if_true]
  rw [findPackageIn_updatePackage_self s.packages pkgId (stowApply palletId t) (fun p => rfl), h]
  rfl

theorem findPackage_stowWrites_stowed (palletId : String) (t : Nat) :
    ∀ (ids : List String) (s : Store) (qid : String) (q : Package),
      findPackage s qid = some q → q.status = .STOWED →
      findPackage (stowWrites palletId t s ids) qid = some q := by
  intro ids
  induction ids with
  | nil =>
    intro s qid q h _
    exact h
  | cons a rest ih =>
    intro s qid q h hst
    by_cases ha : qid = a
    · subst ha
      have hskip : stowWrite qid palletId t s = s :=
        stowWrite_skip s qid palletId t q h (by simp [hst])
      show findPackage (stowWrites palletId t (stowWrite qid palletId t s) rest) qid = some q
      rw [hskip]
      exact ih s qid q h hst
    · show findPackage (stowWrites palletId t (stowWrite a palletId t s) rest) qid = some q
      refine ih _ qid q ?_ hst
      rw [findPackage_stowWrite_ne s a qid palletId t ha]
      exact h

theorem findPackage_stowWrites_mem (palletId : String) (t : Nat) :
    ∀ (ids : List String) (s : Store) (pid : String) (pkg : Package),
      pid ∈ ids → findPackage s pid = some pkg → pkg.status = .INDUCTED →
      findPackage (stowWrites palletId t s ids) pid = some (stowApply palletId t pkg) := by
  intro ids
  induction ids with
  | nil =>
    intro s pid pkg hmem
    cases hmem
  | cons a rest ih =>
    intro s pid pkg hmem h hst
    by_cases ha : pid = a
    · subst ha
      have hw : findPackage (stowWrite pid palletId t s) pid = some (stowApply palletId t pkg) :=
        findPackage_stowWrite_inducted s pid palletId t pkg h hst
      show findPackage (stowWrites palletId t (stowWrite pid palletId t s) rest) pid
          = some (stowApply palletId t pkg)
      exact findPackage_stowWrites_stowed palletId t rest _ pid _ hw rfl
    · cases hmem with
      | head => exact absurd rfl ha
      | tail _ hmem2 =>
        show findPackage (stowWrites palletId t (stowWrite a palletId t s) rest) pid
            = some (stowApply palletId t pkg)
        refine ih _ pid pkg hmem2 ?_ hst
        rw [findPackage_stowWrite_ne s a pid palletId t ha]
        exact h

theorem updateWithVersion_miss (ps : List Package) (pid : String) (v : Nat)
    (f : Package → Package) (h : ∀ p ∈ ps, p.id = pid → ¬ p.version = v) :
    updateWithVersion ps pid v f = (ps, false) := by
  induction ps with
  | nil => rfl
  | cons p ps ih =>
    have hp : ¬ (p.id = pid ∧ p.version = v) := fun hc => h p (by simp) hc.1 hc.2
    have hrest : ∀ q ∈ ps, q.id = pid → ¬ q.version = v :=
      fun q hq => h q (by simp [hq])
    simp [updateWithVersion, hp, ih hrest]

theorem inductLoop_length :
    ∀ (inputs : List InductPackageInput) (s : Store),
      (inductLoop s inputs).1.length = inputs.length := by
  intro inputs
  induction inputs with
  | nil => intro s; rfl
  | cons i rest ih =>
    intro s
    simp [inductLoop, ih]

theorem inductPackage_invalid (S : Store) (pid wid : String) (t : Nat)
    (c : ErrorCode) (m : String) (h : validateInduct S pid wid = .invalid c m) :
    inductPackage S pid wid t =
      ({ success := false, message := m, package := findPackage S pid,
         errors := [⟨if (findPackage S pid).isNone then "packageId"
                     else if (findWarehouse S wid).isNone then "warehouseId"
                     else "status", m, c⟩] }, S) := by
  simp [inductPackage, h]

theorem inductPackage_idem (S : Store) (pid wid : String) (t : Nat)
    (h : validateInduct S pid wid = .valid true) :
    inductPackage S pid wid t =
      ({ success := true, message := "Package already inducted",
         package := findPackage S pid, errors := [] }, S) := by
  simp [inductPackage, h]

theorem inductPackage_accept (S : Store) (pid wid : String) (t : Nat)
    (h : validateInduct S pid wid = .valid false) :
    inductPackage S pid wid t =
      ({ success := true, message := "Inducted successfully",
         package := findPackage
           { S with packages := updatePackage S.packages pid (inductApply t) } pid,
         errors := [] },
       { S with packages := updatePackage S.packages pid (inductApply t) }) := by
  simp [inductPackage, h]

/-- C1: the claim says a STOWED package whose palletId differs from the stow
target is rejected with code CONFLICT.  Evaluating `validateStow` at such a
package (PKG-STOW is STOWED on PLT-A; the target is PLT-B) shows the code
rejects it with INVALID_STATE instead: the not-INDUCTED check precedes the
different-pallet check, so the CONFLICT branch is unreachable for STOWED
packages — contradicting the design document's own unit-test plan
("should reject stowing a package already on another pallet ... CONFLICT"). -/
theorem C1_stowed_on_other_pallet_rejected_invalid_state :
    (validateStow sampleStore ["PKG-STOW"] "PLT-B").1 =
      .invalid .INVALID_STATE "Package PKG-STOW is in STOWED state, expected INDUCTED" ∧
    (stowPackages sampleStore "PLT-B" ["PKG-STOW"] 9).1.errors.map (fun e => e.code) =
      [.INVALID_STATE] := by
  constructor <;> rfl

/-- C2 counterexample: a stow-set in which two packages fail validation
(neither NOPE-1 nor NOPE-2 exists) returns a single error entry — that of the
first failing package — not one error entry per failing package as claimed. -/
theorem C2_counterexample_second_failure_unreported :
    findPackage sampleStore "NOPE-1" = none ∧
    findPackage sampleStore "NOPE-2" = none ∧
    (stowPackages sampleStore "PLT-B" ["NOPE-1", "NOPE-2"] 7).1.errors =
      [⟨"packageIds", "Package NOPE-1 not found", .NOT_FOUND⟩] := by
  refine ⟨rfl, rfl, rfl⟩

/-- C2 (amended): for every stow-set request in which at least one package
fails the per-package stow check, the operation fails and its result contains
exactly one error entry — that of the first failing package in input order —
because validation short-circuits at the first rejection. -/
theorem C2_first_failure_only_reported (s : Store) (palletId : String)
    (pre : List String) (pkgId : String) (post : List String) (t : Nat)
    (e : ErrorCode × String)
    (hpre : ∀ q ∈ pre, stowDecisionErr (getOrCreatePallet s palletId) palletId q = none)
    (hfail : stowDecisionErr (getOrCreatePallet s palletId) palletId pkgId = some e) :
    (stowPackages s palletId (pre ++ pkgId :: post) t).1.success = false ∧
    (stowPackages s palletId (pre ++ pkgId :: post) t).1.errors =
      [⟨"packageIds", e.2, e.1⟩] := by
  have hv := validateStowPackages_append_invalid _ palletId pre pkgId post e hpre hfail
  rw [stowPackages_invalid s palletId (pre ++ pkgId :: post) t e.1 e.2 hv]
  exact ⟨rfl, rfl⟩

/-- Witness for C2's amended theorem: PKG-IND passes the check, NOPE-1 is the
first failure, NOPE-2 another failure behind it; only NOPE-1 is reported. -/
theorem C2_first_failure_only_reported_witness :
    (stowPackages sampleStore "PLT-B" (["PKG-IND"] ++ "NOPE-1" :: ["NOPE-2"]) 7).1.success
      = false ∧
    (stowPackages sampleStore "PLT-B" (["PKG-IND"] ++ "NOPE-1" :: ["NOPE-2"]) 7).1.errors =
      [⟨"packageIds", "Package NOPE-1 not found", .NOT_FOUND⟩] :=
  C2_first_failure_only_reported sampleStore "PLT-B" ["PKG-IND"] "NOPE-1" ["NOPE-2"] 7
    (ErrorCode.NOT_FOUND, "Package NOPE-1 not found") (by decide) (by decide)

/-- C3: for every stow-set request in which at least one package fails the
per-package stow check, the operation fails and no package row is mutated —
the whole packages table is left exactly as it was. -/
theorem C3_failed_stow_set_mutates_no_package (s : Store) (palletId : String)
    (ids : List String) (t : Nat) (pkgId : String) (e : ErrorCode × String)
    (hmem : pkgId ∈ ids)
    (hfail : stowDecisionErr (getOrCreatePallet s palletId) palletId pkgId = some e) :
    (stowPackages s palletId ids t).1.success = false ∧
    (stowPackages s palletId ids t).2.packages = s.packages := by
  obtain ⟨c, m, hv⟩ :=
    validateStowPackages_invalid_of_mem (getOrCreatePallet s palletId) palletId ids pkgId e
      hmem hfail
  rw [stowPackages_invalid s palletId ids t c m hv]
  exact ⟨rfl, getOrCreatePallet_packages s palletId⟩

/-- Witness for C3: a set containing a valid package and a missing one is
rejected and the packages table is unchanged. -/
theorem C3_failed_stow_set_mutates_no_package_witness :
    (stowPackages sampleStore "PLT-B" ["PKG-IND", "NOPE-1"] 7).1.success = false ∧
    (stowPackages sampleStore "PLT-B" ["PKG-IND", "NOPE-1"] 7).2.packages
      = sampleStore.packages :=
  C3_failed_stow_set_mutates_no_package sampleStore "PLT-B" ["PKG-IND", "NOPE-1"] 7 "NOPE-1"
    (ErrorCode.NOT_FOUND, "Package NOPE-1 not found") (by decide) (by decide)

/-- C4: induct is idempotent — for a PENDING package in an existing warehouse,
two induct calls both return success, the second performs no write, and the
package's inductedAt after the second call equals its value after the first
(the first call's receivedAt, never overwritten). -/
theorem C4_induct_idempotent (s : Store) (pid wid : String) (t1 t2 : Nat)
    (pkg : Package) (w : Warehouse)
    (hp : findPackage s pid = some pkg) (hst : pkg.status = .PENDING)
    (hw : findWarehouse s wid = some w) :
    (inductPackage s pid wid t1).1.success = true ∧
    (inductPackage (inductPackage s pid wid t1).2 pid wid t2).1.success = true ∧
    (inductPackage (inductPackage s pid wid t1).2 pid wid t2).2
      = (inductPackage s pid wid t1).2 ∧
    (findPackage (inductPackage s pid wid t1).2 pid).bind Package.inductedAt = some t1 ∧
    (findPackage (inductPackage (inductPackage s pid wid t1).2 pid wid t2).2 pid).bind
        Package.inductedAt = some t1 := by
  have hv1 : validateInduct s pid wid = .valid false := by
    simp [validateInduct, hp, hw, hst]
  have hacc := inductPackage_accept s pid wid t1 hv1
  have h1 : (inductPackage s pid wid t1).2 =
      { s with packages := updatePackage s.packages pid (inductApply t1) } := by
    rw [hacc]
  have h1s : (inductPackage s pid wid t1).1.success = true := by
    rw [hacc]
  have hfind1 : findPackage (inductPackage s pid wid t1).2 pid
      = some (inductApply t1 pkg) := by
    rw [h1]
    unfold findPackage at hp ⊢
    rw [show ({ s with packages := updatePackage s.packages pid (inductApply t1) } : Store).packages
          = updatePackage s.packages pid (inductApply t1) from rfl]
    rw [findPackageIn_updatePackage_self s.packages pid (inductApply t1) (fun p => rfl), hp]
    rfl
  have hw1 : findWarehouse (inductPackage s pid wid t1).2 wid = some w := by
    rw [h1]
    unfold findWarehouse at hw ⊢
    exact hw
  have hv2 : validateInduct (inductPackage s pid wid t1).2 pid wid = .valid true := by
    simp [validateInduct, hfind1, hw1, inductApply]
  have hidem := inductPackage_idem (inductPackage s pid wid t1).2 pid wid t2 hv2
  have h2 : (inductPackage (inductPackage s pid wid t1).2 pid wid t2).2
      = (inductPackage s pid wid t1).2 := by
    rw [hidem]
  have h2s : (inductPackage (inductPackage s pid wid t1).2 pid wid t2).1.success = true := by
    rw [hidem]
  refine ⟨h1s, h2s, h2, ?_, ?_⟩
  · rw [hfind1]
    rfl
  · rw [h2, hfind1]
    rfl

/-- Witness for C4: inducting seed package PKG-001 twice at timestamps 5 then 6
succeeds both times and keeps inductedAt = 5. -/
theorem C4_induct_idempotent_witness :
    (inductPackage sampleStore "PKG-001" "WH-001" 5).1.success = true ∧
    (inductPackage (inductPackage sampleStore "PKG-001" "WH-001" 5).2
        "PKG-001" "WH-001" 6).1.success = true ∧
    (inductPackage (inductPackage sampleStore "PKG-001" "WH-001" 5).2
        "PKG-001" "WH-001" 6).2 = (inductPackage sampleStore "PKG-001" "WH-001" 5).2 ∧
    (findPackage (inductPackage sampleStore "PKG-001" "WH-001" 5).2 "PKG-001").bind
        Package.inductedAt = some 5 ∧
    (findPackage (inductPackage (inductPackage sampleStore "PKG-001" "WH-001" 5).2
        "PKG-001" "WH-001" 6).2 "PKG-001").bind Package.inductedAt = some 5 :=
  C4_induct_idempotent sampleStore "PKG-001" "WH-001" 5 6 pkg001 wh001
    (by decide) (by decide) (by decide)

/-- C5: every package of a successful stow-set whose prior status was INDUCTED
(the Accept case) ends with status STOWED, palletId equal to the target,
stowedAt set to the stow timestamp, and version bumped by exactly one. -/
theorem C5_successful_stow_updates_package (s : Store) (palletId : String)
    (ids : List String) (t : Nat) (pid : String) (pkg : Package)
    (hmem : pid ∈ ids) (hp : findPackage s pid = some pkg)
    (hst : pkg.status = .INDUCTED)
    (hsucc : (stowPackages s palletId ids t).1.success = true) :
    findPackage (stowPackages s palletId ids t).2 pid =
      some { pkg with status := .STOWED, palletId := some palletId,
                      stowedAt := some t, version := pkg.version + 1 } := by
  cases hv : validateStowPackages (getOrCreatePallet s palletId) palletId ids with
  | invalid c m =>
    rw [stowPackages_invalid s palletId ids t c m hv] at hsucc
    simp at hsucc
  | valid b =>
    rw [stowPackages_valid s palletId ids t b hv]
    have hp1 : findPackage (getOrCreatePallet s palletId) pid = some pkg := by
      rw [findPackage_getOrCreatePallet]
      exact hp
    exact findPackage_stowWrites_mem palletId t ids (getOrCreatePallet s palletId) pid pkg
      hmem hp1 hst

/-- Witness for C5: stowing the INDUCTED package PKG-IND onto PLT-A at
timestamp 7 succeeds and produces the expected row. -/
theorem C5_successful_stow_updates_package_witness :
    findPackage (stowPackages sampleStore "PLT-A" ["PKG-IND"] 7).2 "PKG-IND" =
      some { pkgInducted with status := .STOWED, palletId := some "PLT-A",
                              stowedAt := some 7, version := pkgInducted.version + 1 } :=
  C5_successful_stow_updates_package sampleStore "PLT-A" ["PKG-IND"] 7 "PKG-IND" pkgInducted
    (by decide) (by decide) (by decide) (by decide)

/-- C6: inducting a package whose status is STOWED, STAGED or PICKED (package
and warehouse both found) fails with a single INVALID_STATE error and leaves
the store — in particular the package row and its version — unmodified. -/
theorem C6_induct_invalid_state_no_write (s : Store) (pid wid : String) (t : Nat)
    (pkg : Package) (w : Warehouse)
    (hp : findPackage s pid = some pkg) (hw : findWarehouse s wid = some w)
    (hstat : pkg.status = .STOWED ∨ pkg.status = .STAGED ∨ pkg.status = .PICKED) :
    (inductPackage s pid wid t).1.success = false ∧
    (inductPackage s pid wid t).1.errors =
      [⟨"status", "Cannot induct package in " ++ statusName pkg.status ++ " state",
        .INVALID_STATE⟩] ∧
    (inductPackage s pid wid t).2 = s := by
  have hnInd : ¬ pkg.status = .INDUCTED := by
    rcases hstat with h1 | h1 | h1 <;> simp [h1]
  have hnPen : ¬ pkg.status = .PENDING := by
    rcases hstat with h1 | h1 | h1 <;> simp [h1]
  have hv : validateInduct s pid wid =
      .invalid .INVALID_STATE
        ("Cannot induct package in " ++ statusName pkg.status ++ " state") := by
    simp [validateInduct, hp, hw, hnInd, hnPen]
  rw [inductPackage_invalid s pid wid t .INVALID_STATE
        ("Cannot induct package in " ++ statusName pkg.status ++ " state") hv]
  refine ⟨rfl, ?_, rfl⟩
  simp [hp, hw]

/-- Witness for C6: inducting the STOWED package PKG-STOW fails with
INVALID_STATE and the store is untouched. -/
theorem C6_induct_invalid_state_no_write_witness :
    (inductPackage sampleStore "PKG-STOW" "WH-001" 9).1.success = false ∧
    (inductPackage sampleStore "PKG-STOW" "WH-001" 9).1.errors =
      [⟨"status", "Cannot induct package in " ++ statusName pkgStowed.status ++ " state",
        .INVALID_STATE⟩] ∧
    (inductPackage sampleStore "PKG-STOW" "WH-001" 9).2 = sampleStore :=
  C6_induct_invalid_state_no_write sampleStore "PKG-STOW" "WH-001" 9 pkgStowed wh001
    (by decide) (by decide) (Or.inl (by decide))

/-- C7: batch induct returns one result per input in input order, counts
successes and failures as the items whose individual result succeeded or
failed, and an item that fails performs no store write (so it cannot change
any other item's result); concretely, the batch [valid, valid, non-existent]
over the seed store yields successCount 2, failureCount 1, per-item outcomes
[true, true, false], and a NOT_FOUND error on the third result. -/
theorem C7_batch_induct_contract :
    (∀ (s : Store) (inputs : List InductPackageInput),
      (inductPackages s inputs).1.results.length = inputs.length ∧
      (inductPackages s inputs).1.successCount =
        ((inductPackages s inputs).1.results.filter (fun r => r.success)).length ∧
      (inductPackages s inputs).1.failureCount =
        ((inductPackages s inputs).1.results.filter (fun r => ! r.success)).length) ∧
    (∀ (s : Store) (pid wid : String) (t : Nat),
      (inductPackage s pid wid t).1.success = false → (inductPackage s pid wid t).2 = s) ∧
    ((inductPackages sampleStore c7Inputs).1.successCount = 2 ∧
     (inductPackages sampleStore c7Inputs).1.failureCount = 1 ∧
     (inductPackages sampleStore c7Inputs).1.results.map (fun r => r.success) =
       [true, true, false] ∧
     ((inductPackages sampleStore c7Inputs).1.results.get? 2).map (fun r => r.errors) =
       some [⟨"packageId", "Package not found", .NOT_FOUND⟩]) := by
  refine ⟨?_, ?_, ?_⟩
  · intro s inputs
    exact ⟨inductLoop_length inputs s, rfl, rfl⟩
  · intro s pid wid t h
    cases hv : validateInduct s pid wid with
    | invalid c m => rw [inductPackage_invalid s pid wid t c m hv]
    | valid b =>
      cases b with
      | true =>
        rw [inductPackage_idem s pid wid t hv] at h
        simp at h
      | false =>
        rw [inductPackage_accept s pid wid t hv] at h
        simp at h
  · refine ⟨rfl, rfl, rfl, rfl⟩

/-- Witness for C7: the failing third item of the scenario batch (non-existent
package PKG-404) leaves the store unchanged. -/
theorem C7_batch_induct_contract_witness :
    (inductPackage sampleStore "PKG-404" "WH-001" 7).2 = sampleStore :=
  C7_batch_induct_contract.2.1 sampleStore "PKG-404" "WH-001" 7 (by decide)

/-- C8 counterexample: the claim says a conditional write that affects zero
rows is re-read and retried once by the coordinator, surfacing CONFLICT only
if the retry also loses.  PKG-RACE is stored at version 3 while the
coordinator holds a stale snapshot version 2: a single re-read-and-retry would
succeed (shown by the definition following the spec's words), but the ADR-003
write path returns CONFLICT immediately — the code does not retry. -/
theorem C8_counterexample_conflict_without_retry :
    (inductWrite sampleStore "PKG-RACE" 2 10).1.success = false ∧
    (inductWrite sampleStore "PKG-RACE" 2 10).1.errors.map (fun e => e.code) =
      [.CONFLICT] ∧
    (inductWriteSpecRetry sampleStore "PKG-RACE" 2 10).1.success = true := by
  refine ⟨rfl, rfl, rfl⟩

/-- C8 (amended): a conditional package write that affects zero rows because
no stored row matches the expected version surfaces an error with code
CONFLICT immediately, with no server-side retry (ADR-003 delegates retry to
the client) and no partial state: the store is returned unchanged. -/
theorem C8_zero_row_write_surfaces_conflict (s : Store) (pid : String) (v t : Nat)
    (h : ∀ p ∈ s.packages, p.id = pid → ¬ p.version = v) :
    (inductWrite s pid v t).1.success = false ∧
    (inductWrite s pid v t).1.errors = [⟨"version", "Version conflict", .CONFLICT⟩] ∧
    (inductWrite s pid v t).2 = s := by
  have hm := updateWithVersion_miss s.packages pid v (inductApply t) h
  refine ⟨?_, ?_, ?_⟩ <;> simp [inductWrite, hm]

/-- Witness for C8's amended theorem: no row of the seed store has id PKG-001
at version 5, so the write conflicts and the store is unchanged. -/
theorem C8_zero_row_write_surfaces_conflict_witness :
    (inductWrite sampleStore "PKG-001" 5 10).1.success = false ∧
    (inductWrite sampleStore "PKG-001" 5 10).1.errors =
      [⟨"version", "Version conflict", .CONFLICT⟩] ∧
    (inductWrite sampleStore "PKG-001" 5 10).2 = sampleStore :=
  C8_zero_row_write_surfaces_conflict sampleStore "PKG-001" 5 10 (by decide)

/-- C9: re-stowing a package already STOWED on the target pallet is an
idempotent no-op — the operation succeeds and no package row changes (so the
package keeps its version and every other stored field). -/
theorem C9_restow_same_pallet_noop (s : Store) (pid palletId : String) (t : Nat)
    (pkg : Package) (hp : findPackage s pid = some pkg) (hst : pkg.status = .STOWED)
    (hpal : pkg.palletId = some palletId) :
    (stowPackages s palletId [pid] t).1.success = true ∧
    (stowPackages s palletId [pid] t).2.packages = s.packages := by
  have hp1 : findPackage (getOrCreatePallet s palletId) pid = some pkg := by
    rw [findPackage_getOrCreatePallet]
    exact hp
  have hdec : stowDecisionErr (getOrCreatePallet s palletId) palletId pid = none := by
    simp [stowDecisionErr, hp1, hst, hpal]
  have hv : validateStowPackages (getOrCreatePallet s palletId) palletId [pid] =
      .valid false := by
    simp [validateStowPackages, hdec]
  rw [stowPackages_valid s palletId [pid] t false hv]
  have hskip : stowWrite pid palletId t (getOrCreatePallet s palletId)
      = getOrCreatePallet s palletId :=
    stowWrite_skip (getOrCreatePallet s palletId) pid palletId t pkg hp1 (by simp [hst])
  refine ⟨rfl, ?_⟩
  show (stowWrites palletId t (getOrCreatePallet s palletId) [pid]).packages = s.packages
  simp only [stowWrites, hskip]
  exact getOrCreatePallet_packages s palletId

/-- Witness for C9: re-stowing PKG-STOW (already on PLT-A) onto PLT-A succeeds
and leaves the packages table unchanged. -/
theorem C9_restow_same_pallet_noop_witness :
    (stowPackages sampleStore "PLT-A" ["PKG-STOW"] 7).1.success = true ∧
    (stowPackages sampleStore "PLT-A" ["PKG-STOW"] 7).2.packages = sampleStore.packages :=
  C9_restow_same_pallet_noop sampleStore "PKG-STOW" "PLT-A" 7 pkgStowed
    (by decide) (by decide) (by decide)

/-- C10: when the target pallet does not exist, `validateStow` creates it
before any per-package decision, and a stow-set that subsequently fails
validation still leaves the newly created pallet record in the store — the
no-mutation-on-failure guarantee covers packages only. -/
theorem C10_implicit_pallet_persists_on_failure (s : Store) (palletId : String)
    (ids : List String) (t : Nat)
    (hnone : findPallet s palletId = none)
    (hfail : (stowPackages s palletId ids t).1.success = false) :
    findPallet (stowPackages s palletId ids t).2 palletId =
      some { id := palletId, storageLocationId := none, stagedAt := none } := by
  cases hv : validateStowPackages (getOrCreatePallet s palletId) palletId ids with
  | valid b =>
    rw [stowPackages_valid s palletId ids t b hv] at hfail
    simp at hfail
  | invalid c m =>
    rw [stowPackages_invalid s palletId ids t c m hv]
    exact findPallet_getOrCreatePallet s palletId hnone

/-- Witness for C10: stowing a missing package onto the absent pallet PLT-NEW
fails, yet PLT-NEW exists afterwards. -/
theorem C10_implicit_pallet_persists_on_failure_witness :
    findPallet (stowPackages sampleStore "PLT-NEW" ["NOPE-1"] 7).2 "PLT-NEW" =
      some { id := "PLT-NEW", storageLocationId := none, stagedAt := none } :=
  C10_implicit_pallet_persists_on_failure sampleStore "PLT-NEW" ["NOPE-1"] 7
    (by decide) (by decide)

end WMS
